import Mathlib

/-!
Verification of the BookStore front-end script (src/bookapp/static/js/main.js).

The script is browser UI glue: a navbar scroll controller, a toast presenter,
a wishlist heart controller (per-book toggle plus a bulk startup sync), and a
cookie reader. We embed the class-state manipulated by each function as small
Lean structures and translate each handler into a pure function from the
modelled state and the modelled fetch outcome to the resulting state together
with the observable effects (toasts presented, requests issued).
-/

set_option autoImplicit false

namespace BookStore

/-- Class state of one wishlist heart element: the container's active class
and the icon's text-muted / text-danger color classes
(the classes touched by updateWishlistHeart in main.js). -/
structure Heart where
  active : Bool
  textMuted : Bool
  textDanger : Bool
deriving DecidableEq

/-- Translation of updateWishlistHeart (main.js lines 171-183): on true, add
the active class, remove text-muted, add text-danger; on false, remove the
active class, remove text-danger, add text-muted. -/
def updateWishlistHeart (heart : Heart) (inWishlist : Bool) : Heart :=
  if inWishlist then
    { heart with active := true, textMuted := false, textDanger := true }
  else
    { heart with active := false, textDanger := false, textMuted := true }

/-- A toast presented by showToast: its message text and its category
(the bg-* class chosen by the caller). -/
structure Toast where
  message : String
  category : String
deriving DecidableEq

/-- Parsed JSON body of the toggle endpoint response
(fields read by toggleWishlist in main.js lines 153-161). -/
structure ToggleData where
  success : Bool
  in_wishlist : Bool
  message : String
deriving DecidableEq

/-- Outcome of the fetch to the toggle endpoint, as seen by the promise chain
in toggleWishlist: either the fetch resolved with an HTTP status (ok or not)
and a body that parses to ToggleData or does not parse, or the fetch itself
rejected (network failure). -/
inductive ToggleFetchOutcome where
  | response (httpOk : Bool) (body : Option ToggleData)
  | networkFailure
deriving DecidableEq

/-- Observable effect of one run of toggleWishlist: the heart's final class
state, the toasts presented, and any further server requests issued while
handling the response (the handlers issue none). -/
structure ToggleEffect where
  heart : Heart
  toasts : List Toast
  requests : List String
deriving DecidableEq

/-- Translation of the data handler in toggleWishlist (main.js lines 153-162):
on success, update the heart to the server-confirmed state and toast the
server message with category success or info; otherwise toast the message
with category warning and set the heart to the negation of its current
active state. No further request is issued. -/
def handleToggleData (heart : Heart) (d : ToggleData) : ToggleEffect :=
  if d.success then
    { heart := updateWishlistHeart heart d.in_wishlist
      toasts := [⟨d.message, if d.in_wishlist then "success" else "info"⟩]
      requests := [] }
  else
    { heart := updateWishlistHeart heart (!heart.active)
      toasts := [⟨d.message, "warning"⟩]
      requests := [] }

/-- The promise chain of toggleWishlist before its catch (main.js lines
140-162): a rejected fetch propagates as an error, a non-ok HTTP status
throws, an unparseable body makes response.json() reject, and otherwise the
parsed data is handled. -/
def toggleChain (heart : Heart) (f : ToggleFetchOutcome) : Except String ToggleEffect :=
  match f with
  | .networkFailure => .error "fetch rejected"
  | .response httpOk body =>
    if httpOk then
      match body with
      | some d => .ok (handleToggleData heart d)
      | none => .error "json parse failed"
    else .error "Network response was not ok"

/-- Translation of toggleWishlist (main.js lines 139-169): the catch handler
turns every error of the chain into a resolved outcome that toasts a fixed
danger message and sets the heart to the negation of its current active
state. The result is Except.ok exactly when no error escapes unhandled. -/
def toggleWishlist (heart : Heart) (f : ToggleFetchOutcome) : Except String ToggleEffect :=
  match toggleChain heart f with
  | .ok r => .ok r
  | .error _ =>
      .ok { heart := updateWishlistHeart heart (!heart.active)
            toasts := [⟨"Error updating wishlist", "danger"⟩]
            requests := [] }

/-- Whether the toggle fetch outcome fails before the data handler runs:
the fetch rejected, the HTTP status was not ok, or the body did not parse. -/
def toggleFetchFails : ToggleFetchOutcome → Bool
  | .networkFailure => true
  | .response httpOk body => !httpOk || body.isNone

/-! ### Navbar scroll controller -/

/-- Class state of the navbar: the navbar-hidden and navbar-scrolled classes. -/
structure Navbar where
  hidden : Bool
  scrolled : Bool
deriving DecidableEq

/-- State held by the scroll listener closure: the navbar's class state and
the lastScrollTop variable. -/
structure ScrollState where
  navbar : Navbar
  lastScrollTop : Nat
deriving DecidableEq

/-- Translation of the scroll listener installed by the navbar scroll
controller (main.js lines 31-51): hide the navbar when scrolling down past
its own height, show it otherwise; set the scrolled class exactly when the
offset exceeds 100; record the current offset as the last one. -/
def onScroll (navbarHeight : Nat) (st : ScrollState) (scrollTop : Nat) : ScrollState :=
  let nav1 :=
    if scrollTop > st.lastScrollTop ∧ scrollTop > navbarHeight then
      { st.navbar with hidden := true }
    else
      { st.navbar with hidden := false }
  let nav2 :=
    if scrollTop > 100 then
      { nav1 with scrolled := true }
    else
      { nav1 with scrolled := false }
  { navbar := nav2, lastScrollTop := scrollTop }

/-! ### Wishlist startup sync -/

/-- One heart element as it sits on the page: its data-book-isbn attribute
(none when the attribute is absent) and its class state. -/
structure PageHeart where
  isbn : Option String
  heart : Heart
deriving DecidableEq

/-- Translation of the isbn collection in checkWishlistStates (main.js lines
109-111): map every heart to its data-book-isbn and keep the truthy values,
dropping missing attributes and empty strings. -/
def collectIsbns (page : List PageHeart) : List String :=
  (page.filterMap (fun h => h.isbn)).filter (fun s => s ≠ "")

/-- Outcome of the fetch to the status-check endpoint: either a parsed JSON
body with a success flag and the wishlist_status pairs, or a rejection
(network failure or unparseable body). -/
inductive SyncFetchOutcome where
  | response (success : Bool) (pairs : List (String × Bool))
  | networkFailure
deriving DecidableEq

/-- Effect of document.querySelector followed by updateWishlistHeart for one
wishlist_status pair (main.js lines 126-131): the first heart in document
order whose data-book-isbn equals the pair's isbn is updated; all other
hearts are untouched. -/
def updateFirst (page : List PageHeart) (isbn : String) (inWishlist : Bool) :
    List PageHeart :=
  match page with
  | [] => []
  | h :: rest =>
    if h.isbn = some isbn then
      { h with heart := updateWishlistHeart h.heart inWishlist } :: rest
    else
      h :: updateFirst rest isbn inWishlist

/-- The forEach over data.wishlist_status (main.js line 126): the pairs are
applied in order, each to the first matching heart of the current page. -/
def applyPairs (page : List PageHeart) (pairs : List (String × Bool)) : List PageHeart :=
  pairs.foldl (fun pg st => updateFirst pg st.1 st.2) page

/-- A request issued by checkWishlistStates: its method, URL and the isbns
field of its JSON body. -/
structure SyncRequest where
  method : String
  url : String
  isbns : List String
deriving DecidableEq

/-- Observable effect of one run of checkWishlistStates: the resulting page,
the requests issued, and whether the returned promise resolved (rather than
rejected). -/
structure SyncEffect where
  page : List PageHeart
  requests : List SyncRequest
  resolved : Bool
deriving DecidableEq

/-- Translation of checkWishlistStates (main.js lines 107-137): with no
truthy isbns on the page it returns a resolved promise at once and issues no
request; otherwise it issues one POST to the status-check endpoint with the
collected isbns, applies the returned pairs when the response has
success true, leaves the page alone on success false, and its catch turns a
rejection into silent resolution with the page untouched. -/
def checkWishlistStates (page : List PageHeart) (f : SyncFetchOutcome) : SyncEffect :=
  let bookIsbns := collectIsbns page
  if bookIsbns.length = 0 then
    { page := page, requests := [], resolved := true }
  else
    match f with
    | .networkFailure =>
        { page := page
          requests := [⟨"POST", "/wishlist/check-status/", bookIsbns⟩]
          resolved := true }
    | .response success pairs =>
        if success then
          { page := applyPairs page pairs
            requests := [⟨"POST", "/wishlist/check-status/", bookIsbns⟩]
            resolved := true }
        else
          { page := page
            requests := [⟨"POST", "/wishlist/check-status/", bookIsbns⟩]
            resolved := true }

/-- First wishlist_status value returned for an isbn, if any. -/
def lookupPair (pairs : List (String × Bool)) (isbn : String) : Option Bool :=
  (pairs.find? (fun p => p.1 == isbn)).map (fun p => p.2)

/-- Per-heart result of the startup sync when book codes are unique: a heart
whose isbn has a returned pair is updated to the paired value, every other
heart is unchanged. -/
def syncedHeart (pairs : List (String × Bool)) (h : PageHeart) : PageHeart :=
  match h.isbn with
  | some i =>
    match lookupPair pairs i with
    | some b => { h with heart := updateWishlistHeart h.heart b }
    | none => h
  | none => h

/-- Pointwise form of one pair's application when book codes are unique on
the page: the matching heart is updated, every other heart is unchanged. -/
def updOne (isbn : String) (b : Bool) (h : PageHeart) : PageHeart :=
  if h.isbn = some isbn then { h with heart := updateWishlistHeart h.heart b } else h

/-! ### Initialization order (promise traces)

To settle the ordering claim we model the promise chain of
initializeWishlistHearts as a trace semantics: a promise is the list of
events its settled chain performed together with whether it ended rejected;
then-composition appends the continuation's events only when the first
promise resolved, and catch-composition appends the handler's events only
when it rejected. This mirrors the sequential browser event loop. -/

/-- Events observable while initializing the wishlist hearts: the sync fetch
being issued, the sync response being applied, the sync catch logging, and a
click handler being attached to heart number i. -/
inductive InitEv where
  | syncFetch
  | syncApply
  | syncLogError
  | attach (i : Nat)
deriving DecidableEq

/-- A settled promise chain: the events it performed, in order, and whether
it ended rejected. -/
structure PromiseT where
  events : List InitEv
  rejected : Bool
deriving DecidableEq

/-- then-composition: the continuation runs only after the first promise
resolves; a rejection skips it and propagates. -/
def pthen (p k : PromiseT) : PromiseT :=
  if p.rejected then p else ⟨p.events ++ k.events, k.rejected⟩

/-- catch-composition: the handler runs only when the first promise
rejected; a resolution passes through untouched. -/
def pcatch (p k : PromiseT) : PromiseT :=
  if p.rejected then ⟨p.events ++ k.events, k.rejected⟩ else p

/-- Trace of the status-check fetch itself: the request event, rejected
exactly on network failure. -/
def syncFetchTrace : SyncFetchOutcome → PromiseT
  | .networkFailure => ⟨[.syncFetch], true⟩
  | .response _ _ => ⟨[.syncFetch], false⟩

/-- Trace of checkWishlistStates (main.js lines 107-137): an immediate
resolution when no isbns are on the page, otherwise the fetch, then the
response handling, with the catch turning any rejection into a logged
resolution. -/
def checkWishlistStatesTrace (page : List PageHeart) (f : SyncFetchOutcome) : PromiseT :=
  if (collectIsbns page).length = 0 then ⟨[], false⟩
  else pcatch (pthen (syncFetchTrace f) ⟨[.syncApply], false⟩) ⟨[.syncLogError], false⟩

/-- Trace of initializeWishlistHearts (main.js lines 84-94): the click
handlers are attached by the then-continuation of checkWishlistStates, one
per heart on the page. -/
def initWishlistHeartsTrace (page : List PageHeart) (f : SyncFetchOutcome) : PromiseT :=
  pthen (checkWishlistStatesTrace page f)
    ⟨(List.range page.length).map InitEv.attach, false⟩

/-! ### Cookie reader -/

/-- JS String.prototype.trim on a string viewed as its character list:
whitespace is stripped from both ends. -/
def jsTrim (l : List Char) : List Char :=
  ((l.dropWhile Char.isWhitespace).reverse.dropWhile Char.isWhitespace).reverse

/-- JS String.prototype.split with a one-character separator, on a string
viewed as its character list: the empty string splits to one empty piece,
and every separator occurrence starts a new piece. -/
def splitOnChar (sep : Char) : List Char → List (List Char)
  | [] => [[]]
  | c :: rest =>
    if c = sep then
      [] :: splitOnChar sep rest
    else
      match splitOnChar sep rest with
      | [] => [[c]]
      | s :: ss => (c :: s) :: ss

/-- The loop body of getCookie (main.js lines 239-245): scan the split cookie
entries in order; on the first entry whose trimmed form starts with the name
followed by =, return the decoded remainder; otherwise keep the initial
null. decodeURIComponent is a browser builtin, passed in as decode.
substring(0, n+1) is List.take, substring(n+1) is List.drop. -/
def findCookie (decode : List Char → List Char) (name : List Char) :
    List (List Char) → Option (List Char)
  | [] => none
  | c :: rest =>
    let cookie := jsTrim c
    if cookie.take (name.length + 1) = name ++ ['='] then
      some (decode (cookie.drop (name.length + 1)))
    else
      findCookie decode name rest

/-- Translation of getCookie (main.js lines 235-248): on a non-empty cookie
string, split on the semicolon and scan for the named cookie; an empty
cookie string yields null. -/
def getCookie (decode : List Char → List Char) (cookieString name : List Char) :
    Option (List Char) :=
  if cookieString ≠ [] then
    findCookie decode name (splitOnChar ';' cookieString)
  else
    none

/-- A split cookie entry carries the looked-up name: its trimmed form starts
with the name followed by =, which is what the loop in getCookie tests. -/
def hasCookieName (name cookie : List Char) : Prop :=
  (jsTrim cookie).take (name.length + 1) = name ++ ['=']

instance (name cookie : List Char) : Decidable (hasCookieName name cookie) := by
  unfold hasCookieName; infer_instance

/-- Raw (still URI-encoded) value of a cookie entry: the trimmed entry with
the name= prefix removed. -/
def cookieRawValue (name cookie : List Char) : List Char :=
  (jsTrim cookie).drop (name.length + 1)

end BookStore

namespace BookStore

/-! ### Theorems for the claims -/

/-- C1: for every heart and every toggle response with success true, the
handler leaves the promise resolved, sets the heart's classes to reflect the
server-confirmed in_wishlist value, and presents exactly one toast whose
message is the server's message, with category success when in_wishlist is
true and info when it is false. -/
theorem toggleWishlist_success (h : Heart) (d : ToggleData)
    (hs : d.success = true) :
    ∃ eff : ToggleEffect,
      toggleWishlist h (.response true (some d)) = .ok eff ∧
      eff.heart.active = d.in_wishlist ∧
      eff.heart.textDanger = d.in_wishlist ∧
      eff.heart.textMuted = !d.in_wishlist ∧
      eff.toasts = [⟨d.message, if d.in_wishlist then "success" else "info"⟩] := by
  refine ⟨handleToggleData h d, ?_, ?_, ?_, ?_, ?_⟩ <;>
    cases hw : d.in_wishlist <;>
      simp [toggleWishlist, toggleChain, handleToggleData, updateWishlistHeart, hs, hw]

/-- Witness for C1: a concrete inactive heart receiving success true,
in_wishlist true, message Added ends active with one success toast. -/
theorem toggleWishlist_success_witness :
    ∃ eff : ToggleEffect,
      toggleWishlist ⟨false, true, false⟩ (.response true (some ⟨true, true, "Added"⟩)) = .ok eff ∧
      eff.heart.active = true ∧
      eff.heart.textDanger = true ∧
      eff.heart.textMuted = !true ∧
      eff.toasts = [⟨"Added", if true then "success" else "info"⟩] :=
  toggleWishlist_success ⟨false, true, false⟩ ⟨true, true, "Added"⟩ rfl

/-- C2: for every heart and every toggle response with success false, the
handler presents one warning toast carrying the server's message, sets the
heart to the negation of the active state it holds when the response is
processed, and issues no further server request. -/
theorem toggleWishlist_serverFailure (h : Heart) (d : ToggleData)
    (hs : d.success = false) :
    ∃ eff : ToggleEffect,
      toggleWishlist h (.response true (some d)) = .ok eff ∧
      eff.heart = updateWishlistHeart h (!h.active) ∧
      eff.heart.active = !h.active ∧
      eff.toasts = [⟨d.message, "warning"⟩] ∧
      eff.requests = [] := by
  refine ⟨handleToggleData h d, ?_, ?_, ?_, ?_, ?_⟩ <;>
    cases ha : h.active <;>
      simp [toggleWishlist, toggleChain, handleToggleData, updateWishlistHeart, hs, ha]

/-- Witness for C2: a concrete active heart receiving success false with
message Limit reached flips to inactive with one warning toast and no
request. -/
theorem toggleWishlist_serverFailure_witness :
    ∃ eff : ToggleEffect,
      toggleWishlist ⟨true, false, true⟩ (.response true (some ⟨false, false, "Limit reached"⟩)) = .ok eff ∧
      eff.heart = updateWishlistHeart ⟨true, false, true⟩ (!true) ∧
      eff.heart.active = !true ∧
      eff.toasts = [⟨"Limit reached", "warning"⟩] ∧
      eff.requests = [] :=
  toggleWishlist_serverFailure ⟨true, false, true⟩ ⟨false, false, "Limit reached"⟩ rfl

/-- C3: whenever the toggle fetch fails before the data handler runs (the
fetch rejected, the HTTP status was not ok, or the body did not parse), the
catch handler resolves the chain (Except.ok, no unhandled error), presents
one danger toast with the fixed message, sets the heart to the negation of
its current active state, and issues no further request. -/
theorem toggleWishlist_transportFailure (h : Heart) (f : ToggleFetchOutcome)
    (hf : toggleFetchFails f = true) :
    ∃ eff : ToggleEffect,
      toggleWishlist h f = .ok eff ∧
      eff.heart = updateWishlistHeart h (!h.active) ∧
      eff.heart.active = !h.active ∧
      eff.toasts = [⟨"Error updating wishlist", "danger"⟩] ∧
      eff.requests = [] := by
  refine ⟨⟨updateWishlistHeart h (!h.active), [⟨"Error updating wishlist", "danger"⟩], []⟩,
    ?_, rfl, ?_, rfl, rfl⟩
  · match f with
    | .networkFailure => rfl
    | .response httpOk body =>
        cases httpOk with
        | false => rfl
        | true =>
            cases body with
            | none => rfl
            | some d => simp [toggleFetchFails] at hf
  · cases ha : h.active <;> simp [updateWishlistHeart, ha]

/-- Witness for C3: a concrete inactive heart whose toggle fetch rejects ends
active (negation of inactive) with one danger toast and no request. -/
theorem toggleWishlist_transportFailure_witness :
    ∃ eff : ToggleEffect,
      toggleWishlist ⟨false, true, false⟩ .networkFailure = .ok eff ∧
      eff.heart = updateWishlistHeart ⟨false, true, false⟩ (!false) ∧
      eff.heart.active = !false ∧
      eff.toasts = [⟨"Error updating wishlist", "danger"⟩] ∧
      eff.requests = [] :=
  toggleWishlist_transportFailure ⟨false, true, false⟩ .networkFailure rfl

/-- C8: with no truthy book codes on the page, checkWishlistStates resolves
at once with the page untouched and no request issued; otherwise, whatever
the fetch outcome, it issues exactly one POST to the status-check endpoint
whose isbns body field lists the collected book codes. -/
theorem checkWishlistStates_request (page : List PageHeart) (f : SyncFetchOutcome) :
    (collectIsbns page = [] →
      checkWishlistStates page f = ⟨page, [], true⟩) ∧
    (collectIsbns page ≠ [] →
      (checkWishlistStates page f).requests =
        [⟨"POST", "/wishlist/check-status/", collectIsbns page⟩]) := by
  constructor
  · intro h
    simp [checkWishlistStates, h]
  · intro h
    have hlen : ¬(collectIsbns page).length = 0 := by
      simpa [List.length_eq_zero] using h
    cases f with
    | networkFailure => simp [checkWishlistStates, hlen]
    | response success pairs => cases success <;> simp [checkWishlistStates, hlen]

/-- Witness for C8: an empty page yields an immediate resolution with no
request, and a one-heart page with code 1 yields one POST carrying that
code. -/
theorem checkWishlistStates_request_witness :
    checkWishlistStates [] SyncFetchOutcome.networkFailure = ⟨[], [], true⟩ ∧
    collectIsbns [⟨some "1", ⟨false, true, false⟩⟩] = ["1"] ∧
    (checkWishlistStates [⟨some "1", ⟨false, true, false⟩⟩]
        SyncFetchOutcome.networkFailure).requests =
      [⟨"POST", "/wishlist/check-status/",
        collectIsbns [⟨some "1", ⟨false, true, false⟩⟩]⟩] :=
  ⟨(checkWishlistStates_request [] .networkFailure).1 rfl, rfl,
    (checkWishlistStates_request [⟨some "1", ⟨false, true, false⟩⟩]
      .networkFailure).2 (by decide)⟩

/-- C5: for every page and every sync fetch outcome, the startup sync
promise ends resolved (its catch swallows failures), the whole
initialization chain ends resolved, and in its event trace every
handler-attachment event comes strictly after all sync events: the events
before the block of attachments contain no attachment. -/
theorem initWishlistHearts_sync_before_attach (page : List PageHeart)
    (f : SyncFetchOutcome) :
    (checkWishlistStatesTrace page f).rejected = false ∧
    (initWishlistHeartsTrace page f).rejected = false ∧
    ∃ pre : List InitEv,
      (initWishlistHeartsTrace page f).events =
        pre ++ (List.range page.length).map InitEv.attach ∧
      ∀ e ∈ pre, ∀ i : Nat, e ≠ InitEv.attach i := by
  by_cases hlen : (collectIsbns page).length = 0
  · refine ⟨?_, ?_, [], ?_, ?_⟩
    · simp [checkWishlistStatesTrace, hlen]
    · simp [initWishlistHeartsTrace, checkWishlistStatesTrace, hlen, pthen]
    · simp [initWishlistHeartsTrace, checkWishlistStatesTrace, hlen, pthen]
    · intro e he i
      simp at he
  · cases f with
    | networkFailure =>
        refine ⟨?_, ?_, [.syncFetch, .syncLogError], ?_, ?_⟩
        · simp [checkWishlistStatesTrace, hlen, pcatch, pthen, syncFetchTrace]
        · simp [initWishlistHeartsTrace, checkWishlistStatesTrace, hlen, pcatch, pthen,
            syncFetchTrace]
        · simp [initWishlistHeartsTrace, checkWishlistStatesTrace, hlen, pcatch, pthen,
            syncFetchTrace]
        · intro e he i
          simp at he
          rcases he with rfl | rfl <;> exact fun h => InitEv.noConfusion h
    | response success pairs =>
        refine ⟨?_, ?_, [.syncFetch, .syncApply], ?_, ?_⟩
        · simp [checkWishlistStatesTrace, hlen, pcatch, pthen, syncFetchTrace]
        · simp [initWishlistHeartsTrace, checkWishlistStatesTrace, hlen, pcatch, pthen,
            syncFetchTrace]
        · simp [initWishlistHeartsTrace, checkWishlistStatesTrace, hlen, pcatch, pthen,
            syncFetchTrace]
        · intro e he i
          simp at he
          rcases he with rfl | rfl <;> exact fun h => InitEv.noConfusion h

/-- C6: after every scroll event, the navbar-hidden class is present exactly
when the current offset exceeds both the stored last offset and the navbar's
height, the navbar-scrolled class is present exactly when the current offset
exceeds 100, and the stored last offset equals the current offset. -/
theorem onScroll_correct (navbarHeight : Nat) (st : ScrollState) (scrollTop : Nat) :
    ((onScroll navbarHeight st scrollTop).navbar.hidden = true ↔
      (scrollTop > st.lastScrollTop ∧ scrollTop > navbarHeight)) ∧
    ((onScroll navbarHeight st scrollTop).navbar.scrolled = true ↔ scrollTop > 100) ∧
    (onScroll navbarHeight st scrollTop).lastScrollTop = scrollTop := by
  unfold onScroll
  by_cases hdown : scrollTop > st.lastScrollTop ∧ scrollTop > navbarHeight <;>
    by_cases h100 : scrollTop > 100 <;>
      simp [hdown, h100]

/-- C9: after every call to updateWishlistHeart the container's active class
agrees with the icon's text-danger class, the icon never carries text-muted
and text-danger together, and a further call with any argument preserves
both facts. -/
theorem updateWishlistHeart_invariant (h : Heart) (b : Bool) :
    ((updateWishlistHeart h b).active = (updateWishlistHeart h b).textDanger ∧
      ¬((updateWishlistHeart h b).textMuted = true ∧
        (updateWishlistHeart h b).textDanger = true)) ∧
    ∀ b' : Bool,
      (updateWishlistHeart (updateWishlistHeart h b) b').active =
        (updateWishlistHeart (updateWishlistHeart h b) b').textDanger ∧
      ¬((updateWishlistHeart (updateWishlistHeart h b) b').textMuted = true ∧
        (updateWishlistHeart (updateWishlistHeart h b) b').textDanger = true) := by
  constructor
  · cases b <;> simp [updateWishlistHeart]
  · intro b'
    cases b <;> cases b' <;> simp [updateWishlistHeart]

/-- With no returned pairs, the per-heart sync result is the heart itself. -/
lemma syncedHeart_nil (h : PageHeart) : syncedHeart [] h = h := by
  cases hiso : h.isbn <;> simp [syncedHeart, lookupPair, hiso]

/-- Mapping the empty sync over a page changes nothing. -/
lemma map_syncedHeart_nil (page : List PageHeart) :
    page.map (syncedHeart []) = page := by
  induction page with
  | nil => rfl
  | cons h rest ih => simp [syncedHeart_nil, ih]

/-- Unfolding lookupPair over a cons of pairs. -/
lemma lookupPair_cons (p : String × Bool) (pairs : List (String × Bool)) (i : String) :
    lookupPair (p :: pairs) i = if p.1 = i then some p.2 else lookupPair pairs i := by
  by_cases h : p.1 = i
  · simp [lookupPair, List.find?_cons_of_pos, h]
  · simp [lookupPair, List.find?_cons_of_neg, h]

/-- An isbn that no returned pair mentions has no looked-up value. -/
lemma lookupPair_eq_none (pairs : List (String × Bool)) (i : String)
    (h : i ∉ pairs.map Prod.fst) : lookupPair pairs i = none := by
  induction pairs with
  | nil => rfl
  | cons p rest ih =>
    have h1 : ¬p.1 = i := fun hc => h (by simp [hc])
    have h2 : i ∉ rest.map Prod.fst := fun hc => h (List.mem_cons_of_mem _ hc)
    rw [lookupPair_cons]
    simp [h1, ih h2]

/-- updOne never touches a heart's isbn attribute, so the page's isbn list
survives it. -/
lemma filterMap_isbn_map_updOne (i : String) (b : Bool) (l : List PageHeart) :
    (l.map (updOne i b)).filterMap PageHeart.isbn = l.filterMap PageHeart.isbn := by
  induction l with
  | nil => rfl
  | cons h rest ih =>
    by_cases hh : h.isbn = some i <;>
      simp [updOne, hh, List.filterMap_cons, ih]

/-- Mapping updOne over hearts none of which bears the isbn changes
nothing. -/
lemma map_updOne_eq_self (i : String) (b : Bool) (l : List PageHeart)
    (h : ∀ ph ∈ l, ph.isbn ≠ some i) : l.map (updOne i b) = l := by
  induction l with
  | nil => rfl
  | cons ph rest ih =>
    have h1 : ph.isbn ≠ some i := h ph (List.mem_cons_self ph rest)
    simp [updOne, h1, ih (fun q hq => h q (List.mem_cons_of_mem ph hq))]

/-- When book codes are unique on the page, updating the first match is
updating every match. -/
lemma updateFirst_eq_map (page : List PageHeart) (i : String) (b : Bool)
    (hnd : (page.filterMap PageHeart.isbn).Nodup) :
    updateFirst page i b = page.map (updOne i b) := by
  induction page with
  | nil => rfl
  | cons h rest ih =>
    by_cases hh : h.isbn = some i
    · have hmem : i ∉ rest.filterMap PageHeart.isbn := by
        rw [List.filterMap_cons, hh] at hnd
        exact (List.nodup_cons.mp hnd).1
      have hrest : ∀ ph ∈ rest, ph.isbn ≠ some i := fun ph hm hc =>
        hmem (List.mem_filterMap.mpr ⟨ph, hm, hc⟩)
      simp [updateFirst, updOne, hh, map_updOne_eq_self i b rest hrest]
    · have hnd' : (rest.filterMap PageHeart.isbn).Nodup := by
        rw [List.filterMap_cons] at hnd
        cases hiso : h.isbn with
        | none => rwa [hiso] at hnd
        | some j =>
            rw [hiso] at hnd
            exact (List.nodup_cons.mp hnd).2
      simp [updateFirst, updOne, hh, ih hnd']

/-- Applying the head pair pointwise and then syncing with the remaining
pairs is syncing with all the pairs, as long as the head pair's isbn does
not recur. -/
lemma syncedHeart_cons (p : String × Bool) (pairs : List (String × Bool))
    (hkey : p.1 ∉ pairs.map Prod.fst) (h : PageHeart) :
    syncedHeart pairs (updOne p.1 p.2 h) = syncedHeart (p :: pairs) h := by
  cases hiso : h.isbn with
  | none => simp [updOne, syncedHeart, hiso]
  | some i =>
    by_cases hip : i = p.1
    · subst hip
      have hnone : lookupPair pairs p.1 = none := lookupPair_eq_none pairs p.1 hkey
      simp [updOne, syncedHeart, hiso, hnone, lookupPair_cons]
    · have hne : ¬p.1 = i := fun hc => hip hc.symm
      simp [updOne, syncedHeart, hiso, lookupPair_cons, hip, hne]

/-- The forEach over the returned pairs acts as a single map over the page
when book codes are unique on the page and among the pairs. -/
lemma applyPairs_eq_map :
    ∀ (pairs : List (String × Bool)) (page : List PageHeart),
      (page.filterMap PageHeart.isbn).Nodup → (pairs.map Prod.fst).Nodup →
      applyPairs page pairs = page.map (syncedHeart pairs) := by
  intro pairs
  induction pairs with
  | nil =>
    intro page _ _
    simp [applyPairs, map_syncedHeart_nil]
  | cons p rest ih =>
    intro page hH hP
    have hstep : applyPairs page (p :: rest) = applyPairs (updateFirst page p.1 p.2) rest := rfl
    have hkey : p.1 ∉ rest.map Prod.fst := (List.nodup_cons.mp (by simpa using hP)).1
    have hP' : (rest.map Prod.fst).Nodup := (List.nodup_cons.mp (by simpa using hP)).2
    rw [hstep, updateFirst_eq_map page p.1 p.2 hH,
      ih (page.map (updOne p.1 p.2)) (by rw [filterMap_isbn_map_updOne]; exact hH) hP',
      List.map_map]
    have hfun : (syncedHeart rest ∘ updOne p.1 p.2) = syncedHeart (p :: rest) :=
      funext (fun h => syncedHeart_cons p rest hkey h)
    rw [hfun]

/-- Counterexample to C4 as stated: on a page where two hearts carry the
same book code 1, a success response pairing code 1 with true updates only
the first heart; the second heart's code appears in a returned pair, yet its
visual state stays inactive instead of being set to the paired value. -/
theorem checkWishlistStates_dup_cex :
    (("1", true)) ∈ [(("1" : String), true)] ∧
    (checkWishlistStates
        [⟨some "1", ⟨false, true, false⟩⟩, ⟨some "1", ⟨false, true, false⟩⟩]
        (.response true [("1", true)])).page =
      [⟨some "1", ⟨true, false, true⟩⟩, ⟨some "1", ⟨false, true, false⟩⟩] := by
  decide

/-- C4 (amended): provided each book code sits on at most one heart, the
returned pairs carry pairwise distinct codes, and every returned code was
among the requested ones, a success true response sets exactly those hearts
whose code appears in a returned pair to the paired value and leaves every
other heart unchanged; a success false response and a transport failure
leave every heart unchanged. -/
theorem checkWishlistStates_sync (page : List PageHeart) (pairs : List (String × Bool))
    (hH : (page.filterMap PageHeart.isbn).Nodup)
    (hP : (pairs.map Prod.fst).Nodup)
    (hreq : ∀ p ∈ pairs, p.1 ∈ collectIsbns page) :
    (checkWishlistStates page (.response true pairs)).page = page.map (syncedHeart pairs) ∧
    (checkWishlistStates page (.response false pairs)).page = page ∧
    (checkWishlistStates page .networkFailure).page = page := by
  refine ⟨?_, ?_, ?_⟩
  · by_cases hlen : (collectIsbns page).length = 0
    · have hpairs : pairs = [] := by
        cases pairs with
        | nil => rfl
        | cons p rest =>
            have hmem := hreq p (List.mem_cons_self p rest)
            rw [List.length_eq_zero.mp hlen] at hmem
            cases hmem
      subst hpairs
      simp [checkWishlistStates, hlen, map_syncedHeart_nil]
    · simpa [checkWishlistStates, hlen] using applyPairs_eq_map pairs page hH hP
  · by_cases hlen : (collectIsbns page).length = 0 <;> simp [checkWishlistStates, hlen]
  · by_cases hlen : (collectIsbns page).length = 0 <;> simp [checkWishlistStates, hlen]

/-- Witness for C4: on a two-heart page with distinct codes 123 and 456, a
success response pairing 123 with true activates the 123 heart and leaves
the 456 heart untouched. -/
theorem checkWishlistStates_sync_witness :
    (checkWishlistStates
        [⟨some "123", ⟨false, true, false⟩⟩, ⟨some "456", ⟨false, true, false⟩⟩]
        (.response true [("123", true)])).page =
      [⟨some "123", ⟨false, true, false⟩⟩, ⟨some "456", ⟨false, true, false⟩⟩].map
        (syncedHeart [("123", true)]) ∧
    [⟨some "123", ⟨false, true, false⟩⟩, ⟨some "456", ⟨false, true, false⟩⟩].map
        (syncedHeart [("123", true)]) =
      [⟨some "123", ⟨true, false, true⟩⟩, ⟨some "456", ⟨false, true, false⟩⟩] :=
  ⟨(checkWishlistStates_sync
      [⟨some "123", ⟨false, true, false⟩⟩, ⟨some "456", ⟨false, true, false⟩⟩]
      [("123", true)] (by decide) (by decide) (by decide)).1,
    by decide⟩

/-- The cookie loop returns null exactly when no entry of the list carries
the name. -/
lemma findCookie_eq_none_iff (decode : List Char → List Char) (name : List Char)
    (l : List (List Char)) :
    findCookie decode name l = none ↔ ∀ c ∈ l, ¬ hasCookieName name c := by
  induction l with
  | nil => simp [findCookie]
  | cons c rest ih =>
    by_cases h : hasCookieName name c
    · unfold hasCookieName at h
      simp [findCookie, h, hasCookieName]
    · unfold hasCookieName at h
      simp [findCookie, h, ih]
      intro _
      exact h

/-- When one entry of the list carries the name and is the only such entry,
the cookie loop returns its decoded raw value. -/
lemma findCookie_eq_some (decode : List Char → List Char) (name : List Char)
    (l : List (List Char)) (c : List Char) (hc : c ∈ l) (h : hasCookieName name c)
    (huniq : ∀ c' ∈ l, hasCookieName name c' → c' = c) :
    findCookie decode name l = some (decode (cookieRawValue name c)) := by
  induction l with
  | nil => cases hc
  | cons c₀ rest ih =>
    by_cases h₀ : hasCookieName name c₀
    · have hc₀ : c₀ = c := huniq c₀ (List.mem_cons_self c₀ rest) h₀
      subst hc₀
      unfold hasCookieName at h₀
      simp [findCookie, h₀, cookieRawValue]
    · rcases List.mem_cons.mp hc with rfl | hc'
      · exact absurd h h₀
      · have hrec := ih hc' (fun c' hmem hh => huniq c' (List.mem_cons_of_mem c₀ hmem) hh)
        unfold hasCookieName at h₀
        simpa [findCookie, h₀] using hrec

/-- The empty-string guard in getCookie is redundant: an empty cookie string
splits to one empty entry, which never carries a name. -/
lemma getCookie_eq_findCookie (decode : List Char → List Char)
    (cookieString name : List Char) :
    getCookie decode cookieString name =
      findCookie decode name (splitOnChar ';' cookieString) := by
  unfold getCookie
  by_cases hs : cookieString = []
  · subst hs
    have hne : ¬(List.take (name.length + 1) (jsTrim []) = name ++ ['=']) := by
      intro h
      have hlen := congrArg List.length h
      simp [jsTrim] at hlen
    simp [splitOnChar, findCookie, hne]
  · simp [hs]

/-- C7: for every decoder, cookie string and name, getCookie returns null
exactly when no split entry carries the name, and whenever one entry carries
the name and no other entry does, it returns that entry's URI-decoded value,
wherever in the cookie string the entry sits. -/
theorem getCookie_correct (decode : List Char → List Char)
    (cookieString name : List Char) :
    (getCookie decode cookieString name = none ↔
      ∀ c ∈ splitOnChar ';' cookieString, ¬ hasCookieName name c) ∧
    (∀ c ∈ splitOnChar ';' cookieString, hasCookieName name c →
      (∀ c' ∈ splitOnChar ';' cookieString, hasCookieName name c' → c' = c) →
      getCookie decode cookieString name = some (decode (cookieRawValue name c))) := by
  rw [getCookie_eq_findCookie]
  exact ⟨findCookie_eq_none_iff decode name _,
    fun c hc h huniq => findCookie_eq_some decode name _ c hc h huniq⟩

/-- Witness for C7: in the concrete cookie string x=1; csrftoken=abc the
cookie csrftoken is found at the second position and its value abc is
returned through the identity decoder. -/
theorem getCookie_correct_witness :
    getCookie id ['x', '=', '1', ';', ' ', 'c', 's', 'r', 'f', 't', 'o', 'k', 'e', 'n', '=', 'a', 'b', 'c']
        ['c', 's', 'r', 'f', 't', 'o', 'k', 'e', 'n'] =
      some (id (cookieRawValue ['c', 's', 'r', 'f', 't', 'o', 'k', 'e', 'n']
        [' ', 'c', 's', 'r', 'f', 't', 'o', 'k', 'e', 'n', '=', 'a', 'b', 'c'])) ∧
    cookieRawValue ['c', 's', 'r', 'f', 't', 'o', 'k', 'e', 'n']
        [' ', 'c', 's', 'r', 'f', 't', 'o', 'k', 'e', 'n', '=', 'a', 'b', 'c'] =
      ['a', 'b', 'c'] :=
  ⟨(getCookie_correct id
      ['x', '=', '1', ';', ' ', 'c', 's', 'r', 'f', 't', 'o', 'k', 'e', 'n', '=', 'a', 'b', 'c']
      ['c', 's', 'r', 'f', 't', 'o', 'k', 'e', 'n']).2
      [' ', 'c', 's', 'r', 'f', 't', 'o', 'k', 'e', 'n', '=', 'a', 'b', 'c']
      (by decide) (by decide) (by decide),
    by decide⟩

/-- C10: updateWishlistHeart is idempotent and history-independent: applying
it twice with the same flag equals applying it once, and the result depends
only on the flag, never on the heart's prior class state. -/
theorem updateWishlistHeart_idempotent (h h' : Heart) (b : Bool) :
    updateWishlistHeart (updateWishlistHeart h b) b = updateWishlistHeart h b ∧
    updateWishlistHeart h b = updateWishlistHeart h' b := by
  cases b <;> simp [updateWishlistHeart]

end BookStore
